import Mathlib

/-!
Verification development for the "Refrigerator Chef" single-page client
(`src/services/geminiService.ts`, `src/App.tsx` and the unnamed revision
`src/unnamed/part_000` of the main screen).

The external generative backend, the host key picker and the JavaScript
builtins `JSON.parse` / `encodeURIComponent` are not repository code.  The
backend is modelled as an oracle mapping the request prompt to an outcome,
`JSON.parse` as an oracle parameter `parse : String → Option _` (`none`
models a thrown `SyntaxError`), and `encodeURIComponent` is given its
ECMAScript definition (percent-encoding of the UTF-8 bytes of every
character outside the unreserved set).  Everything else is translated
directly from the TypeScript source.
-/

set_option autoImplicit false

namespace RefrigeratorChef

/-- The data record produced by the text-generation call (`types.ts` is not
part of `src/`; the field list is taken from the spec's data model and from
every use site in the source: title, description, ingredients, steps, and an
optional imageUrl attached later). -/
structure Recipe where
  title : String
  description : String
  ingredients : List String
  steps : List String
  imageUrl : Option String := none
deriving Repr, DecidableEq

/-- Modelled from the spec: `types.ts` (the `MealTime` enumeration) is not
under `src/`; the spec fixes the three values BREAKFAST, LUNCH, DINNER. -/
inductive MealTime where
  | BREAKFAST
  | LUNCH
  | DINNER
deriving Repr, DecidableEq

/-- Modelled from the spec: the string value each `MealTime` member carries
(interpolated into the prompt); `types.ts` is not under `src/`. -/
def MealTime.label : MealTime → String
  | .BREAKFAST => "BREAKFAST"
  | .LUNCH => "LUNCH"
  | .DINNER => "DINNER"

/-- The JSON document shape the text backend is asked to produce:
`\x7b recipes: [...] \x7d` (from `types.ts` usage in `fetchRecipes`). -/
structure RecipeGenerationResponse where
  recipes : List Recipe
deriving Repr, DecidableEq

/-- Outcome of one call to the external text-generation backend
(`ai.models.generateContent`): either the promise rejects with an error
carrying a message, or it resolves with `response.text : string | undefined`. -/
inductive GenOutcome where
  | threw (msg : String)
  | replied (text : Option String)
deriving Repr, DecidableEq

/-- One entry of `candidate.content.parts` in an image response; only the
presence of `inlineData` (with its base64 payload) matters to the source. -/
structure ImgPart where
  inlineData : Option String
deriving Repr, DecidableEq

/-- Outcome of one call to the external image backend: a rejection, or a
response whose `candidates?.[0]?.content?.parts` is absent or a list. -/
inductive ImgOutcome where
  | threw (msg : String)
  | replied (parts : Option (List ImgPart))
deriving Repr, DecidableEq

/-- The guard `!apiKey || apiKey === "undefined"` used at the top of every
service function (`geminiService.ts` lines 10, 35, 97): `process.env.API_KEY`
is missing when it is undefined, the empty string, or the literal text
"undefined". -/
def keyMissing : Option String → Bool
  | none => true
  | some k => k = "" || k = "undefined"

/-- JavaScript `hay.includes(needle)`: substring containment. -/
def strContains (hay needle : String) : Bool :=
  hay.toList.tails.any fun t => needle.toList.isPrefixOf t

/-- A character `encodeURIComponent` leaves unescaped:
`A-Z a-z 0-9 - _ . ! ~ * APOSTROPHE ( )` (ECMAScript uriUnescaped set). -/
def uriUnescaped (c : Char) : Bool :=
  let n := c.toNat
  (65 ≤ n && n ≤ 90) || (97 ≤ n && n ≤ 122) || (48 ≤ n && n ≤ 57) ||
  n = 45 || n = 95 || n = 46 || n = 33 || n = 126 || n = 42 || n = 39 ||
  n = 40 || n = 41

/-- Uppercase hexadecimal digit for `n < 16`. -/
def hexDigit (n : Nat) : Char :=
  if n < 10 then Char.ofNat (48 + n) else Char.ofNat (55 + n)

/-- The UTF-8 byte sequence of a Unicode scalar value. -/
def utf8Bytes (n : Nat) : List Nat :=
  if n < 128 then [n]
  else if n < 2048 then [192 + n / 64, 128 + n % 64]
  else if n < 65536 then [224 + n / 4096, 128 + (n / 64) % 64, 128 + n % 64]
  else [240 + n / 262144, 128 + (n / 4096) % 64, 128 + (n / 64) % 64,
        128 + n % 64]

/-- Percent-escape of one byte: `%XY` with uppercase hex. -/
def percentByte (b : Nat) : List Char :=
  [Char.ofNat 37, hexDigit (b / 16), hexDigit (b % 16)]

/-- The JavaScript builtin `encodeURIComponent` (an external collaborator of
the source, modelled by its ECMAScript definition): unreserved characters
pass through, every other character is replaced by the percent-escapes of
its UTF-8 bytes. -/
def encodeURIComponent (s : String) : String :=
  String.mk (s.toList.flatMap fun c =>
    if uriUnescaped c then [c] else (utf8Bytes c.toNat).flatMap percentByte)

/-- `geminiService.ts` line 130: the deterministic placeholder image URL
derived from the recipe title. -/
def getDefaultImage (title : String) : String :=
  "https://picsum.photos/seed/" ++ encodeURIComponent title ++ "/600/600"

/-- The error message thrown by `fetchRecipes` when the key guard fails
(`geminiService.ts` line 36). -/
def apiKeyMissingMsg : String :=
  "API 키가 설정되지 않았습니다. 앱 설정에서 키를 연결해 주세요."

/-- The error message thrown by `fetchRecipes` when the backend returns no
text (`geminiService.ts` line 82). -/
def emptyResponseMsg : String := "AI 응답이 비어있습니다."

/-- Stand-in message for the `SyntaxError` the external `JSON.parse` throws
on malformed input (rethrown unchanged by the catch in `fetchRecipes`). -/
def jsonSyntaxErrorMsg : String := "Unexpected token in JSON"

/-- The prompt built by `fetchRecipes` (`geminiService.ts` lines 41-43),
with the ingredient list comma-joined and the meal-time label interpolated. -/
def recipePrompt (ingredients : List String) (mealTime : MealTime) : String :=
  "냉장고에 있는 재료: " ++ String.intercalate ", " ingredients ++
  ". 식사 시간: " ++ mealTime.label ++ ". \n    이 재료들을 주재료로 활용하여 " ++
  mealTime.label ++
  " 식사에 어울리는 실용적이고 맛있는 한국 요리 레시피 3가지를 추천해줘. \n    기본적인 조미료(소금, 간장, 설탕, 기름 등)는 집에 있다고 가정해."

/-- The prompt built by `generateRecipeImage` (`geminiService.ts` line 101). -/
def imagePrompt (title : String) : String :=
  "Professional food photography of " ++ title ++
  ", delicious looking, top view or 45 degree angle, soft warm lighting, studio background, 4k resolution."

/-- `fetchRecipes` (`geminiService.ts` lines 33-90).  `parse` models the
`JSON.parse` builtin, `backend` the opaque text backend applied to the
prompt.  The second component records whether the backend was contacted.
The catch block only logs and rethrows, so every thrown error propagates
with its message unchanged. -/
def fetchRecipes (parse : String → Option RecipeGenerationResponse)
    (apiKey : Option String) (backend : String → GenOutcome)
    (ingredients : List String) (mealTime : MealTime) :
    Except String (List Recipe) × Bool :=
  if keyMissing apiKey then (Except.error apiKeyMissingMsg, false)
  else
    match backend (recipePrompt ingredients mealTime) with
    | .threw m => (Except.error m, true)
    | .replied none => (Except.error emptyResponseMsg, true)
    | .replied (some s) =>
      if s = "" then (Except.error emptyResponseMsg, true)
      else
        match parse s.trim with
        | none => (Except.error jsonSyntaxErrorMsg, true)
        | some d => (Except.ok d.recipes, true)

/-- `generateRecipeImage` (`geminiService.ts` lines 95-128): key guard,
then the backend call; the first part carrying `inlineData` becomes a data
URI, otherwise (including a caught backend error) the placeholder is
returned.  Total: the function never propagates a failure.  The second
component records whether the backend was contacted. -/
def generateRecipeImage (apiKey : Option String)
    (backend : String → ImgOutcome) (title : String) : String × Bool :=
  if keyMissing apiKey then (getDefaultImage title, false)
  else
    match backend (imagePrompt title) with
    | .threw _ => (getDefaultImage title, true)
    | .replied none => (getDefaultImage title, true)
    | .replied (some parts) =>
      match parts.findSome? (fun p => p.inlineData) with
      | some d => ("data:image/png;base64," ++ d, true)
      | none => (getDefaultImage title, true)

/-- `testConnection` (`geminiService.ts` lines 8-28): key guard, then a
"connection test" prompt; `!!response.text` means success is a present and
non-empty text, and any thrown error yields `false`.  The second component
records whether the backend was contacted. -/
def testConnection (apiKey : Option String)
    (backend : String → GenOutcome) : Bool × Bool :=
  if keyMissing apiKey then (false, false)
  else
    match backend "connection test" with
    | .threw _ => (false, true)
    | .replied none => (false, true)
    | .replied (some s) => (s ≠ "", true)

/-- True when the image response carries at least one inline-image part, so
`generateRecipeImage` would return a data URI rather than the placeholder. -/
def hasInlinePart : ImgOutcome → Bool
  | .threw _ => false
  | .replied none => false
  | .replied (some parts) => (parts.findSome? (fun p => p.inlineData)).isSome

/-! ### The App component (`src/App.tsx` and the revision `src/unnamed/part_000`) -/

/-- The React state of the `App` component that the handlers touch:
`ingredients`, `mealTime`, `recipes`, `isLoading`, `error`, the tri-state
`hasApiKey` (`none` = still checking), `isTestingKey`, and the tri-state
`testResult` (`none` = untested).  `showSettings` is pure presentation and
is never read by a handler, so it is omitted. -/
structure AppState where
  ingredients : List String
  mealTime : MealTime
  recipes : List Recipe
  isLoading : Bool
  error : Option String
  hasApiKey : Option Bool
  isTestingKey : Bool
  testResult : Option Bool
deriving Repr, DecidableEq

/-- The external world a generation request interacts with: the `JSON.parse`
builtin, `process.env.API_KEY`, and the two backend oracles. -/
structure GenEnv where
  parse : String → Option RecipeGenerationResponse
  apiKey : Option String
  textBackend : String → GenOutcome
  imageBackend : String → ImgOutcome

/-- `handleRemoveIngredient` (`App.tsx` lines 74-76):
`prev.filter((_, i) => i !== index)` — keep every element whose position
differs from `index`.  JavaScript array indices are numbers, so the index is
taken as an integer. -/
def handleRemoveIngredient (index : Int) (prev : List String) : List String :=
  (prev.enum.filter fun p => ((p.1 : Int) != index)).map Prod.snd

/-- `handleAddIngredient` (`App.tsx` lines 70-72): append to the end. -/
def handleAddIngredient (item : String) (prev : List String) : List String :=
  prev ++ [item]

/-- Recursive companion of `handleRemoveIngredient` used by the proofs:
drop the element at offset `i` (the head sits at offset 0) and keep
everything else; a negative or too-large offset matches nothing. -/
def removeAux (i : Int) : List String → List String
  | [] => []
  | x :: xs =>
    if i = 0 then removeAux (i - 1) xs else x :: removeAux (i - 1) xs

/-- The image-enrichment fan-out of `handleGenerate` (`App.tsx` lines
92-97): map each text-phase recipe to a copy with the resolved `imageUrl`
attached.  `Promise.all` preserves the order of its input, so the settled
list is the positional map. -/
def enrichWithImages (apiKey : Option String)
    (imageBackend : String → ImgOutcome) (recipes : List Recipe) :
    List Recipe :=
  recipes.map fun r =>
    { r with imageUrl := some (generateRecipeImage apiKey imageBackend r.title).1 }

/-- The credential classifier of `App.tsx` `handleGenerate` (line 103):
`err.message?.includes("not found") || err.message?.includes("API key")`. -/
def isCredentialMsg (m : String) : Bool :=
  strContains m "not found" || strContains m "API key"

/-- The credential classifier of the `part_000` revision (lines 106-110):
the same two markers plus "403" and "401". -/
def isCredentialMsgP0 (m : String) : Bool :=
  strContains m "not found" || strContains m "API key" ||
  strContains m "403" || strContains m "401"

/-- Validation message of `App.tsx` `handleGenerate` (line 80). -/
def validationMsg : String := "최소 한 개의 재료를 입력해주세요!"

/-- Re-authentication message of `App.tsx` `handleGenerate` (line 105). -/
def reauthMsg : String := "유효하지 않은 API 키입니다. 다시 설정해주세요."

/-- Generic failure message of `App.tsx` `handleGenerate` (line 107). -/
def genericErrorMsg : String :=
  "레시피를 생성하는 중 오류가 발생했습니다. 잠시 후 다시 시도해주세요."

/-- Validation message of the `part_000` revision. -/
def validationMsgP0 : String := "최소 한 개의 재료를 입력해 주세요!"

/-- Re-authentication message of the `part_000` revision. -/
def reauthMsgP0 : String := "유효하지 않거나 만료된 API 키입니다. 다시 연결해 주세요."

/-- Generic failure message of the `part_000` revision. -/
def genericErrorMsgP0 : String :=
  "레시피를 생성하는 중 오류가 발생했습니다. 잠시 후 다시 시도해 주세요."

/-- `handleGenerate` (`App.tsx` lines 78-112) as a state transformer over
the settled final state.  The second component records whether
`fetchRecipes` was invoked (the empty-ingredient validation branch returns
before any service call).  The success path sets the text-only recipes and
then overwrites them with the image-enriched batch; the error path
classifies the message and either re-gates (`hasApiKey := false` plus the
re-authentication message) or shows the generic message.  `finally` clears
`isLoading` on every path that entered it. -/
def handleGenerate (env : GenEnv) (s : AppState) : AppState × Bool :=
  if s.ingredients.length = 0 then
    ({ s with error := some validationMsg }, false)
  else
    let cleared : AppState :=
      { s with isLoading := true, error := none, recipes := [] }
    match (fetchRecipes env.parse env.apiKey env.textBackend
            s.ingredients s.mealTime).1 with
    | Except.ok suggested =>
      ({ cleared with
          recipes := enrichWithImages env.apiKey env.imageBackend suggested
          isLoading := false }, true)
    | Except.error msg =>
      if isCredentialMsg msg then
        ({ cleared with
            hasApiKey := some false
            error := some reauthMsg
            isLoading := false }, true)
      else
        ({ cleared with
            error := some genericErrorMsg
            isLoading := false }, true)

/-- `handleGenerate` of the `part_000` revision (lines 79-118): identical
flow, but the per-recipe image request is additionally wrapped in a
`try/catch` returning the bare recipe (dead code here, since
`generateRecipeImage` never throws), and the error classifier also matches
"403" and "401". -/
def handleGenerateP0 (env : GenEnv) (s : AppState) : AppState × Bool :=
  if s.ingredients.length = 0 then
    ({ s with error := some validationMsgP0 }, false)
  else
    let cleared : AppState :=
      { s with isLoading := true, error := none, recipes := [] }
    match (fetchRecipes env.parse env.apiKey env.textBackend
            s.ingredients s.mealTime).1 with
    | Except.ok suggested =>
      ({ cleared with
          recipes := enrichWithImages env.apiKey env.imageBackend suggested
          isLoading := false }, true)
    | Except.error msg =>
      if isCredentialMsgP0 msg then
        ({ cleared with
            hasApiKey := some false
            error := some reauthMsgP0
            isLoading := false }, true)
      else
        ({ cleared with
            error := some genericErrorMsgP0
            isLoading := false }, true)

/-- Failure message of `handleTestConnection` (`App.tsx` line 59). -/
def testFailMsg : String :=
  "API 연결에 실패했습니다. 유효한 API 키를 선택했는지 확인해주세요."

/-- Failure message of `runAutoTest` in the `part_000` revision. -/
def testFailMsgP0 : String :=
  "API 키 연결은 되었으나 테스트에 실패했습니다. 유효한 키인지 확인해 주세요."

/-- `handleTestConnection` (`App.tsx` lines 52-68) over the settled state:
run `testConnection`, record the result, and set or clear the error; the
transient `isTestingKey := true` is undone by `finally`. -/
def handleTestConnection (apiKey : Option String)
    (backend : String → GenOutcome) (s : AppState) : AppState :=
  if (testConnection apiKey backend).1 then
    { s with isTestingKey := false, testResult := some true, error := none }
  else
    { s with
        isTestingKey := false
        testResult := some false
        error := some testFailMsg }

/-- `runAutoTest` of the `part_000` revision (lines 36-52): same shape as
`handleTestConnection` with its own failure message. -/
def runAutoTest (apiKey : Option String)
    (backend : String → GenOutcome) (s : AppState) : AppState :=
  if (testConnection apiKey backend).1 then
    { s with isTestingKey := false, testResult := some true, error := none }
  else
    { s with
        isTestingKey := false
        testResult := some false
        error := some testFailMsgP0 }

/-- `handleOpenKeySelection` (`App.tsx` lines 36-50): when
`window.aistudio` exists, await `openSelectKey()`; if it resolves
(`pickerOk`), optimistically set `hasApiKey := true`, clear the error and
run the connection test; if it rejects, only log.  When the capability is
absent the handler does nothing at all. -/
def handleOpenKeySelection (aistudioAvailable : Bool) (pickerOk : Bool)
    (apiKey : Option String) (backend : String → GenOutcome)
    (s : AppState) : AppState :=
  if aistudioAvailable then
    if pickerOk then
      handleTestConnection apiKey backend
        { s with hasApiKey := some true, error := none }
    else s
  else s

/-- Message the `part_000` revision shows when the key-picker capability is
unavailable (line 68). -/
def unsupportedEnvMsg : String := "이 환경은 시스템 API 키 선택기를 지원하지 않습니다."

/-- `handleOpenKeySelection` of the `part_000` revision (lines 54-69): as in
`App.tsx`, but with an else branch surfacing the unsupported-environment
message (state otherwise unchanged), and the test run through `runAutoTest`. -/
def handleOpenKeySelectionP0 (aistudioAvailable : Bool) (pickerOk : Bool)
    (apiKey : Option String) (backend : String → GenOutcome)
    (s : AppState) : AppState :=
  if aistudioAvailable then
    if pickerOk then
      runAutoTest apiKey backend
        { s with hasApiKey := some true, error := none }
    else s
  else { s with error := some unsupportedEnvMsg }

/-! ### Shared lemmas -/

/-- Whenever the image outcome carries no inline part (including a thrown
backend error), `generateRecipeImage` returns the placeholder. -/
theorem generateRecipeImage_fallback (key : Option String)
    (backend : String → ImgOutcome) (title : String)
    (h : hasInlinePart (backend (imagePrompt title)) = false) :
    (generateRecipeImage key backend title).1 = getDefaultImage title := by
  unfold generateRecipeImage
  cases hk : keyMissing key with
  | true => simp
  | false =>
    simp only [Bool.false_eq_true, if_false]
    cases ho : backend (imagePrompt title) with
    | threw m => simp
    | replied parts =>
      cases parts with
      | none => simp
      | some ps =>
        rw [ho] at h
        simp only [hasInlinePart] at h
        cases hfs : ps.findSome? (fun p => p.inlineData) with
        | none => simp [hfs]
        | some d => rw [hfs] at h; simp at h

/-- On a successful, non-empty, parseable backend response `fetchRecipes`
returns exactly the parsed `recipes` array (used by the C1 theorem and its
counterexample). -/
theorem fetchRecipes_ok_of_parse
    (parse : String → Option RecipeGenerationResponse) (key : Option String)
    (backend : String → GenOutcome) (ingredients : List String)
    (mealTime : MealTime) (s : String) (d : RecipeGenerationResponse)
    (hk : keyMissing key = false)
    (hb : backend (recipePrompt ingredients mealTime) =
      GenOutcome.replied (some s))
    (hs : s ≠ "") (hp : parse s.trim = some d) :
    fetchRecipes parse key backend ingredients mealTime =
      (Except.ok d.recipes, true) := by
  unfold fetchRecipes
  simp [hk, hb, hs, hp]

/-! ### Claims -/

/-- C3: `generateRecipeImage` never raises — it is a total function — and
for every title, on any backend error and also when the response contains no
inline image part (`hasInlinePart` false covers both), it returns the
placeholder URL instead of propagating the failure. -/
theorem C3_generateRecipeImage_total_fallback (key : Option String)
    (backend : String → ImgOutcome) (title : String)
    (h : hasInlinePart (backend (imagePrompt title)) = false) :
    (generateRecipeImage key backend title).1 = getDefaultImage title :=
  generateRecipeImage_fallback key backend title h

/-- Witness for C3 at a thrown backend error on the title "Stew". -/
theorem C3_witness :
    hasInlinePart ((fun _ => ImgOutcome.threw "boom") (imagePrompt "Stew")) =
      false ∧
    (generateRecipeImage (some "k") (fun _ => ImgOutcome.threw "boom")
        "Stew").1 = getDefaultImage "Stew" :=
  ⟨rfl, C3_generateRecipeImage_total_fallback (some "k")
    (fun _ => ImgOutcome.threw "boom") "Stew" rfl⟩

/-- C7: the placeholder is a deterministic function of the title alone — any
two calls that fall back (different keys, different failing backend
outcomes) return the same URL, and that URL is
`https://picsum.photos/seed/<url-encoded-title>/600/600`. -/
theorem C7_placeholder_deterministic (t : String) (k₁ k₂ : Option String)
    (b₁ b₂ : String → ImgOutcome)
    (h₁ : hasInlinePart (b₁ (imagePrompt t)) = false)
    (h₂ : hasInlinePart (b₂ (imagePrompt t)) = false) :
    (generateRecipeImage k₁ b₁ t).1 = (generateRecipeImage k₂ b₂ t).1 ∧
    (generateRecipeImage k₁ b₁ t).1 =
      "https://picsum.photos/seed/" ++ encodeURIComponent t ++ "/600/600" := by
  have e₁ := generateRecipeImage_fallback k₁ b₁ t h₁
  have e₂ := generateRecipeImage_fallback k₂ b₂ t h₂
  exact ⟨by rw [e₁, e₂], by rw [e₁]; rfl⟩

/-- Witness for C7: a missing key and a thrown backend error both fall back
to the same concrete URL for the title "Kimchi Stew" (space encoded %20). -/
theorem C7_witness :
    (generateRecipeImage none (fun _ => ImgOutcome.replied none)
        "Kimchi Stew").1 =
      (generateRecipeImage (some "k") (fun _ => ImgOutcome.threw "x")
        "Kimchi Stew").1 ∧
    (generateRecipeImage none (fun _ => ImgOutcome.replied none)
        "Kimchi Stew").1 =
      "https://picsum.photos/seed/" ++ encodeURIComponent "Kimchi Stew" ++
        "/600/600" :=
  C7_placeholder_deterministic "Kimchi Stew" none (some "k")
    (fun _ => ImgOutcome.replied none) (fun _ => ImgOutcome.threw "x")
    rfl rfl

/-- C10: every service operation guards locally on the credential: when
`process.env.API_KEY` is unset, empty, or the literal "undefined",
`fetchRecipes` throws the key-configuration error, `generateRecipeImage`
returns the deterministic placeholder, and `testConnection` returns false —
in each case without contacting the backend (second component `false`). -/
theorem C10_missing_key_guards (key : Option String)
    (h : key = none ∨ key = some "" ∨ key = some "undefined")
    (parse : String → Option RecipeGenerationResponse)
    (tb : String → GenOutcome) (ib : String → ImgOutcome)
    (ingredients : List String) (mealTime : MealTime) (title : String) :
    fetchRecipes parse key tb ingredients mealTime =
      (Except.error apiKeyMissingMsg, false) ∧
    generateRecipeImage key ib title = (getDefaultImage title, false) ∧
    testConnection key tb = (false, false) := by
  have hk : keyMissing key = true := by
    rcases h with rfl | rfl | rfl <;> rfl
  refine ⟨?_, ?_, ?_⟩ <;>
    simp [fetchRecipes, generateRecipeImage, testConnection, hk]

/-- Witness for C10 at the literal string "undefined". -/
theorem C10_witness :
    fetchRecipes (fun _ => none) (some "undefined")
        (fun _ => GenOutcome.replied (some "hi")) ["egg"] MealTime.LUNCH =
      (Except.error apiKeyMissingMsg, false) ∧
    generateRecipeImage (some "undefined")
        (fun _ => ImgOutcome.replied none) "Stew" =
      (getDefaultImage "Stew", false) ∧
    testConnection (some "undefined")
        (fun _ => GenOutcome.replied (some "hi")) = (false, false) :=
  C10_missing_key_guards (some "undefined") (Or.inr (Or.inr rfl))
    (fun _ => none) (fun _ => GenOutcome.replied (some "hi"))
    (fun _ => ImgOutcome.replied none) ["egg"] MealTime.LUNCH "Stew"

/-- C4: with an empty ingredient list, `handleGenerate` only sets the
validation message — the rest of the state (recipes, `isLoading`, the
credential flag) is untouched, so the display stays idle — and `fetchRecipes`
is never invoked (second component `false`); with any non-empty list the
validation branch is not taken and `fetchRecipes` is invoked. -/
theorem C4_empty_ingredients_validation (env : GenEnv) (s : AppState) :
    (s.ingredients = [] →
      handleGenerate env s = ({ s with error := some validationMsg }, false)) ∧
    (s.ingredients ≠ [] → (handleGenerate env s).2 = true) := by
  constructor
  · intro h
    unfold handleGenerate
    simp [h]
  · intro h
    have hlen : ¬ s.ingredients.length = 0 := fun hc =>
      h (List.length_eq_zero.mp hc)
    unfold handleGenerate
    rw [if_neg hlen]
    cases (fetchRecipes env.parse env.apiKey env.textBackend s.ingredients
        s.mealTime).1 with
    | ok suggested => rfl
    | error msg =>
      by_cases hc : isCredentialMsg msg <;> simp [hc]

/-- Witness for C4: a concrete empty-list state takes the validation branch
without calling the service; the same state with one ingredient calls it. -/
theorem C4_witness :
    handleGenerate
        ⟨fun _ => none, some "k", fun _ => GenOutcome.replied none,
          fun _ => ImgOutcome.replied none⟩
        ⟨[], MealTime.BREAKFAST, [], false, none, some true, false, none⟩ =
      ({ (⟨[], MealTime.BREAKFAST, [], false, none, some true, false, none⟩ :
            AppState) with error := some validationMsg }, false) ∧
    (handleGenerate
        ⟨fun _ => none, some "k", fun _ => GenOutcome.replied none,
          fun _ => ImgOutcome.replied none⟩
        ⟨["egg"], MealTime.BREAKFAST, [], false, none, some true, false,
          none⟩).2 = true :=
  ⟨(C4_empty_ingredients_validation _ _).1 rfl,
   (C4_empty_ingredients_validation _ _).2 (by decide)⟩

/-- C5: when the backend text body is missing or empty, `fetchRecipes` fails
with the EmptyResponse condition (it throws, fabricating nothing), and after
the failing generation the recipe list is empty and the generic error is
shown. -/
theorem C5_empty_response_throws (env : GenEnv) (s : AppState)
    (hne : s.ingredients ≠ [])
    (hk : keyMissing env.apiKey = false)
    (hb : env.textBackend (recipePrompt s.ingredients s.mealTime) =
            GenOutcome.replied none ∨
          env.textBackend (recipePrompt s.ingredients s.mealTime) =
            GenOutcome.replied (some "")) :
    (fetchRecipes env.parse env.apiKey env.textBackend s.ingredients
        s.mealTime).1 = Except.error emptyResponseMsg ∧
    (handleGenerate env s).1.recipes = [] ∧
    (handleGenerate env s).1.error = some genericErrorMsg := by
  have hfx : (fetchRecipes env.parse env.apiKey env.textBackend s.ingredients
      s.mealTime).1 = Except.error emptyResponseMsg := by
    unfold fetchRecipes
    rcases hb with hb | hb <;> simp [hk, hb]
  have hcred : isCredentialMsg emptyResponseMsg = false := by decide
  have hlen : ¬ s.ingredients.length = 0 := fun hc =>
    hne (List.length_eq_zero.mp hc)
  have hgen : handleGenerate env s =
      ({ s with
          isLoading := false
          error := some genericErrorMsg
          recipes := [] }, true) := by
    unfold handleGenerate
    rw [if_neg hlen, hfx]
    simp [hcred]
  exact ⟨hfx, by rw [hgen], by rw [hgen]⟩

/-- Witness for C5: a backend that resolves with no text at all. -/
theorem C5_witness :
    (fetchRecipes (fun _ => none) (some "k")
        (fun _ => GenOutcome.replied none) ["egg"] MealTime.DINNER).1 =
      Except.error emptyResponseMsg ∧
    (handleGenerate
        ⟨fun _ => none, some "k", fun _ => GenOutcome.replied none,
          fun _ => ImgOutcome.replied none⟩
        ⟨["egg"], MealTime.DINNER, [], false, none, some true, false,
          none⟩).1.recipes = [] ∧
    (handleGenerate
        ⟨fun _ => none, some "k", fun _ => GenOutcome.replied none,
          fun _ => ImgOutcome.replied none⟩
        ⟨["egg"], MealTime.DINNER, [], false, none, some true, false,
          none⟩).1.error = some genericErrorMsg :=
  C5_empty_response_throws
    ⟨fun _ => none, some "k", fun _ => GenOutcome.replied none,
      fun _ => ImgOutcome.replied none⟩
    ⟨["egg"], MealTime.DINNER, [], false, none, some true, false, none⟩
    (by decide) rfl (Or.inl rfl)

/-- C1 (amended): on a successful backend response `fetchRecipes` returns
exactly the `recipes` array of the parsed JSON, in order — so it yields
exactly 3 well-formed records precisely when the backend's JSON contains
exactly 3 such records; the count of three and the non-emptiness of the
fields are requested of the backend via prompt and schema, not enforced by
the code. -/
theorem C1_fetchRecipes_returns_parsed_list
    (parse : String → Option RecipeGenerationResponse) (key : Option String)
    (backend : String → GenOutcome) (ingredients : List String)
    (mealTime : MealTime) (s : String) (d : RecipeGenerationResponse)
    (hk : keyMissing key = false)
    (hb : backend (recipePrompt ingredients mealTime) =
      GenOutcome.replied (some s))
    (hs : s ≠ "") (hp : parse s.trim = some d) :
    fetchRecipes parse key backend ingredients mealTime =
      (Except.ok d.recipes, true) :=
  fetchRecipes_ok_of_parse parse key backend ingredients mealTime s d
    hk hb hs hp

/-- Counterexample to C1 as stated: the backend successfully returns the
well-formed JSON document with an empty `recipes` array (the parse oracle
returns what `JSON.parse` returns on that document, the empty-recipes
record); `fetchRecipes` succeeds and returns 0 records, not 3 — the code
performs no count or non-emptiness validation. -/
theorem C1_counterexample :
    fetchRecipes (fun _ => some (RecipeGenerationResponse.mk []))
      (some "key")
      (fun _ => GenOutcome.replied (some "\x7b\"recipes\":[]\x7d"))
      ["egg", "onion"] MealTime.LUNCH = (Except.ok [], true) ∧
    ([] : List Recipe).length ≠ 3 :=
  ⟨fetchRecipes_ok_of_parse _ _ _ _ _ _ _ rfl rfl (by decide) rfl,
   by decide⟩

/-- Witness for C1 (amended) at a parsed document holding one recipe. -/
theorem C1_witness :
    fetchRecipes
      (fun _ => some (RecipeGenerationResponse.mk
        [⟨"Stew", "Warm", ["egg"], ["Boil"], none⟩]))
      (some "key") (fun _ => GenOutcome.replied (some "doc"))
      ["egg"] MealTime.LUNCH =
      (Except.ok [⟨"Stew", "Warm", ["egg"], ["Boil"], none⟩], true) :=
  C1_fetchRecipes_returns_parsed_list _ (some "key") _ ["egg"]
    MealTime.LUNCH "doc"
    (RecipeGenerationResponse.mk [⟨"Stew", "Warm", ["egg"], ["Boil"], none⟩])
    rfl rfl (by decide) rfl

/-- C2 (amended): when the text-generation call throws, the `part_000`
revision of the handler classifies the error as a CredentialError exactly
when the message contains one of the markers "not found", "API key", "403",
"401", while the `App.tsx` revision checks only "not found" and "API key";
in either revision a classified CredentialError flips the credential state
to ABSENT (`hasApiKey = some false`) and shows the re-authentication
message, and an unclassified error leaves the credential state unchanged
and shows the generic message. -/
theorem C2_credential_classification (env : GenEnv) (s : AppState)
    (msg : String) (hne : s.ingredients ≠ [])
    (hk : keyMissing env.apiKey = false)
    (hb : env.textBackend (recipePrompt s.ingredients s.mealTime) =
      GenOutcome.threw msg) :
    ((strContains msg "not found" || strContains msg "API key" ||
        strContains msg "403" || strContains msg "401") = true →
      (handleGenerateP0 env s).1.hasApiKey = some false ∧
      (handleGenerateP0 env s).1.error = some reauthMsgP0) ∧
    ((strContains msg "not found" || strContains msg "API key" ||
        strContains msg "403" || strContains msg "401") = false →
      (handleGenerateP0 env s).1.hasApiKey = s.hasApiKey ∧
      (handleGenerateP0 env s).1.error = some genericErrorMsgP0) ∧
    ((strContains msg "not found" || strContains msg "API key") = true →
      (handleGenerate env s).1.hasApiKey = some false ∧
      (handleGenerate env s).1.error = some reauthMsg) ∧
    ((strContains msg "not found" || strContains msg "API key") = false →
      (handleGenerate env s).1.hasApiKey = s.hasApiKey ∧
      (handleGenerate env s).1.error = some genericErrorMsg) := by
  have hlen : ¬ s.ingredients.length = 0 := fun hc =>
    hne (List.length_eq_zero.mp hc)
  have hfx : (fetchRecipes env.parse env.apiKey env.textBackend
      s.ingredients s.mealTime).1 = Except.error msg := by
    unfold fetchRecipes
    simp [hk, hb]
  refine ⟨fun h => ?_, fun h => ?_, fun h => ?_, fun h => ?_⟩
  · have hc : isCredentialMsgP0 msg = true := h
    unfold handleGenerateP0
    rw [if_neg hlen, hfx]
    simp [hc]
  · have hc : isCredentialMsgP0 msg = false := h
    unfold handleGenerateP0
    rw [if_neg hlen, hfx]
    simp [hc]
  · have hc : isCredentialMsg msg = true := h
    unfold handleGenerate
    rw [if_neg hlen, hfx]
    simp [hc]
  · have hc : isCredentialMsg msg = false := h
    unfold handleGenerate
    rw [if_neg hlen, hfx]
    simp [hc]

/-- Counterexample to C2 as stated: the message "Error 401" contains the
marker "401", so per the claim it must be classified as a CredentialError
and flip the credential state to ABSENT; the `App.tsx` handler does not
check "401", leaves `hasApiKey` at `some true` and shows the generic
message. -/
theorem C2_counterexample :
    strContains "Error 401" "401" = true ∧
    (handleGenerate
        ⟨fun _ => none, some "k", fun _ => GenOutcome.threw "Error 401",
          fun _ => ImgOutcome.replied none⟩
        ⟨["egg"], MealTime.BREAKFAST, [], false, none, some true, false,
          none⟩).1.hasApiKey = some true ∧
    (handleGenerate
        ⟨fun _ => none, some "k", fun _ => GenOutcome.threw "Error 401",
          fun _ => ImgOutcome.replied none⟩
        ⟨["egg"], MealTime.BREAKFAST, [], false, none, some true, false,
          none⟩).1.error = some genericErrorMsg := by
  refine ⟨by decide, by decide, by decide⟩

/-- Witness for C2 (amended): the message "Requested entity was not found"
is classified by both revisions and re-gates the credential state. -/
theorem C2_witness :
    (strContains "Requested entity was not found" "not found" ||
      strContains "Requested entity was not found" "API key") = true ∧
    (handleGenerate
        ⟨fun _ => none, some "k",
          fun _ => GenOutcome.threw "Requested entity was not found",
          fun _ => ImgOutcome.replied none⟩
        ⟨["egg"], MealTime.LUNCH, [], false, none, some true, false,
          none⟩).1.hasApiKey = some false ∧
    (handleGenerate
        ⟨fun _ => none, some "k",
          fun _ => GenOutcome.threw "Requested entity was not found",
          fun _ => ImgOutcome.replied none⟩
        ⟨["egg"], MealTime.LUNCH, [], false, none, some true, false,
          none⟩).1.error = some reauthMsg :=
  ⟨by decide,
    (C2_credential_classification
      ⟨fun _ => none, some "k",
        fun _ => GenOutcome.threw "Requested entity was not found",
        fun _ => ImgOutcome.replied none⟩
      ⟨["egg"], MealTime.LUNCH, [], false, none, some true, false, none⟩
      "Requested entity was not found" (by decide) rfl rfl).2.2.1
      (by decide)⟩

/-- C6 (amended): when the key-picker capability exists and the picker
invocation resolves, both revisions optimistically set the credential state
to PRESENT (`hasApiKey = some true`) regardless of the connectivity test
result, and then trigger the connectivity test (recording its outcome in
`testResult`); when the capability is unavailable, the `part_000` revision
surfaces the unsupported-environment message leaving the credential state
unchanged, while the `App.tsx` revision is a complete silent no-op. -/
theorem C6_key_selection_optimistic (s : AppState) (key : Option String)
    (backend : String → GenOutcome) (pickerOk : Bool) :
    (handleOpenKeySelection true true key backend s).hasApiKey =
      some true ∧
    (handleOpenKeySelection true true key backend s).testResult =
      some (testConnection key backend).1 ∧
    (handleOpenKeySelectionP0 true true key backend s).hasApiKey =
      some true ∧
    (handleOpenKeySelectionP0 true true key backend s).testResult =
      some (testConnection key backend).1 ∧
    handleOpenKeySelectionP0 false pickerOk key backend s =
      { s with error := some unsupportedEnvMsg } ∧
    handleOpenKeySelection false pickerOk key backend s = s := by
  unfold handleOpenKeySelection handleOpenKeySelectionP0
    handleTestConnection runAutoTest
  by_cases h : (testConnection key backend).1 <;> simp [h]

/-- Counterexample to C6 as stated: with the capability unavailable the
`App.tsx` key-selection handler returns the state untouched — in particular
no "environment unsupported" message is surfaced (`error` stays `none`). -/
theorem C6_counterexample :
    handleOpenKeySelection false true (some "k")
        (fun _ => GenOutcome.replied (some "hi"))
        ⟨["egg"], MealTime.BREAKFAST, [], false, none, some false, false,
          none⟩ =
      ⟨["egg"], MealTime.BREAKFAST, [], false, none, some false, false,
        none⟩ ∧
    (⟨["egg"], MealTime.BREAKFAST, [], false, none, some false, false,
        none⟩ : AppState).error = none := by
  exact ⟨rfl, rfl⟩

/-- C9: image enrichment is a pure frame extension of the text-phase list —
same length, same order, and each settled record is the corresponding
text-phase record with only `imageUrl` attached. -/
theorem C9_enrichment_frame (key : Option String)
    (ib : String → ImgOutcome) (rs : List Recipe) :
    (enrichWithImages key ib rs).length = rs.length ∧
    ∀ i, i < rs.length →
      ∃ r, rs[i]? = some r ∧
        (enrichWithImages key ib rs)[i]? =
          some { r with
                  imageUrl := some (generateRecipeImage key ib r.title).1 } := by
  refine ⟨List.length_map _ _, fun i hi => ?_⟩
  refine ⟨rs[i], List.getElem?_eq_getElem hi, ?_⟩
  unfold enrichWithImages
  rw [List.getElem?_map, List.getElem?_eq_getElem hi]
  rfl

/-- Witness for C9 on a one-recipe batch whose image request fails. -/
theorem C9_witness :
    (enrichWithImages (some "k") (fun _ => ImgOutcome.threw "x")
        [⟨"Stew", "Warm", ["egg"], ["Boil"], none⟩]).length = 1 ∧
    ∃ r, ([⟨"Stew", "Warm", ["egg"], ["Boil"], none⟩] : List Recipe)[0]? =
        some r ∧
      (enrichWithImages (some "k") (fun _ => ImgOutcome.threw "x")
          [⟨"Stew", "Warm", ["egg"], ["Boil"], none⟩])[0]? =
        some { r with
                imageUrl := some ((generateRecipeImage (some "k")
                  (fun _ => ImgOutcome.threw "x") r.title).1) } :=
  ⟨(C9_enrichment_frame (some "k") (fun _ => ImgOutcome.threw "x")
      [⟨"Stew", "Warm", ["egg"], ["Boil"], none⟩]).1,
   (C9_enrichment_frame (some "k") (fun _ => ImgOutcome.threw "x")
      [⟨"Stew", "Warm", ["egg"], ["Boil"], none⟩]).2 0 (by decide)⟩

/-- The filter-by-position form of `handleRemoveIngredient`, started at any
enumeration offset `n`, agrees with the recursive companion at `index - n`. -/
theorem enumFrom_filter_snd (index : Int) (l : List String) :
    ∀ n : Nat,
      ((List.enumFrom n l).filter fun p => ((p.1 : Int) != index)).map
          Prod.snd = removeAux (index - n) l := by
  induction l with
  | nil => intro n; rfl
  | cons x xs ih =>
    intro n
    rw [List.enumFrom_cons, List.filter_cons]
    by_cases h : (n : Int) = index
    · rw [if_neg (by simp [h])]
      rw [ih (n + 1)]
      have harith : index - ((n + 1 : Nat) : Int) = index - n - 1 := by
        push_cast; ring
      rw [harith]
      simp only [removeAux]
      rw [if_pos (by omega)]
    · rw [if_pos (by simp only [bne_iff_ne, ne_eq]; exact fun hc => h hc)]
      rw [List.map_cons, ih (n + 1)]
      have harith : index - ((n + 1 : Nat) : Int) = index - n - 1 := by
        push_cast; ring
      rw [harith]
      simp only [removeAux]
      rw [if_neg (by omega)]

/-- `handleRemoveIngredient` equals its recursive companion. -/
theorem handleRemoveIngredient_eq_removeAux (index : Int) (l : List String) :
    handleRemoveIngredient index l = removeAux index l := by
  unfold handleRemoveIngredient
  simpa using enumFrom_filter_snd index l 0

/-- An out-of-range offset leaves the list untouched. -/
theorem removeAux_out_of_range (l : List String) :
    ∀ i : Int, (i < 0 ∨ (l.length : Int) ≤ i) → removeAux i l = l := by
  induction l with
  | nil => intro i _; rfl
  | cons x xs ih =>
    intro i h
    have hlen : ((x :: xs).length : Int) = (xs.length : Int) + 1 := by
      simp [List.length_cons]
    have hi0 : ¬ i = 0 := by omega
    simp only [removeAux, if_neg hi0]
    rw [ih (i - 1) (by omega)]

/-- An in-range offset removes exactly that element: the result is the
prefix before it followed by the suffix after it. -/
theorem removeAux_in_range (l : List String) :
    ∀ j : Nat, j < l.length → removeAux (j : Int) l =
      l.take j ++ l.drop (j + 1) := by
  induction l with
  | nil => intro j hj; simp at hj
  | cons x xs ih =>
    intro j hj
    cases j with
    | zero =>
      simp only [removeAux]
      rw [if_pos (by norm_num)]
      rw [removeAux_out_of_range xs _ (Or.inl (by norm_num))]
      simp
    | succ k =>
      simp only [removeAux]
      rw [if_neg (by push_cast; omega)]
      have harith : ((k + 1 : Nat) : Int) - 1 = (k : Int) := by
        push_cast; ring
      rw [harith, ih k (by simpa [List.length_cons] using Nat.lt_of_succ_lt_succ hj)]
      simp [List.take_succ_cons, List.drop_succ_cons]

/-- C8: `remove(i)` with `i` in range removes exactly the element at
position `i`, leaving the other `n-1` elements in their original relative
order (the result is the prefix before `i` followed by the suffix after
`i`, of length `n-1`); with an out-of-range index (negative or at least
`n`) it is a no-op returning the list unchanged, and being a total
function it never throws. -/
theorem C8_remove_ingredient (l : List String) (i : Int) :
    (0 ≤ i → i < (l.length : Int) →
      handleRemoveIngredient i l = l.take i.toNat ++ l.drop (i.toNat + 1) ∧
      (handleRemoveIngredient i l).length = l.length - 1) ∧
    ((i < 0 ∨ (l.length : Int) ≤ i) → handleRemoveIngredient i l = l) := by
  constructor
  · intro h0 hlt
    have hj : i = (i.toNat : Int) := (Int.toNat_of_nonneg h0).symm
    have hjlt : i.toNat < l.length := by omega
    have he := handleRemoveIngredient_eq_removeAux i l
    have hr : removeAux i l = l.take i.toNat ++ l.drop (i.toNat + 1) := by
      rw [hj]; exact removeAux_in_range l i.toNat hjlt
    refine ⟨he.trans hr, ?_⟩
    rw [he.trans hr]
    simp only [List.length_append, List.length_take, List.length_drop]
    omega
  · intro h
    rw [handleRemoveIngredient_eq_removeAux]
    exact removeAux_out_of_range l i h

/-- Witness for C8: removing index 1 from a three-element list, and the
no-op at the out-of-range indices 5 and -1. -/
theorem C8_witness :
    handleRemoveIngredient 1 ["a", "b", "c"] = ["a", "c"] ∧
    handleRemoveIngredient 5 ["a", "b", "c"] = ["a", "b", "c"] ∧
    handleRemoveIngredient (-1) ["a", "b", "c"] = ["a", "b", "c"] := by
  refine ⟨?_, ?_, ?_⟩
  · have h := ((C8_remove_ingredient ["a", "b", "c"] 1).1 (by decide)
      (by decide)).1
    simpa using h
  · exact (C8_remove_ingredient ["a", "b", "c"] 5).2 (Or.inr (by decide))
  · exact (C8_remove_ingredient ["a", "b", "c"] (-1)).2 (Or.inl (by decide))

end RefrigeratorChef
